import Mathlib

/-!
Verification of the futunn-helper Token Manager (`src/futunn/token.py`)
against its design specification.

The Python module is embedded shallowly:

* `TokenState` mirrors the mutable fields of `TokenManager`
  (`csrf_token`, `quote_token`, `_headers_cache`).
* The HTTP transport is abstracted as a `FetchOutcome` argument: either a
  `Response` (status code, headers, body text) or a network-level request
  error, matching the `httpx.RequestError` branch of the source.
* Each operation is a pure function of the current state and the transport
  outcome, returning the new state, a result
  (`Except String …` models raising `TokenExpiredError` with a message —
  the class the spec names `TokenAcquisitionError`), and the number of
  network round-trips issued during the call.
* The two `re.search` calls are embedded as an executable matcher for the
  exact patterns in the source,
  `csrf[_-]?token["\x27]\s*[:=]\s*["\x27]([^"\x27]+)["\x27]` and its
  `quote`-prefixed twin, with Python leftmost / greedy-with-backtracking
  semantics specialised to these patterns.
-/

namespace Futunn

/-- From `src/futunn/constants.py`: `DEFAULT_USER_AGENT`. -/
def DEFAULT_USER_AGENT : String :=
  "Mozilla/5.0 (Macintosh; Intel Mac OS X 10_15_7) AppleWebKit/537.36 (KHTML, like Gecko) Chrome/141.0.0.0 Safari/537.36"

/-- Modelled from the spec: `urls.STOCK_LIST_PAGE`, the site's canonical
stock-list page URL, a fixed constant; the module `futunn/urls.py` is not
part of the provided sources.  Only the fact that the referer header equals
this constant matters to the claims, not its literal value. -/
def STOCK_LIST_PAGE : String :=
  "https://www.futunn.com/en/stock-list"

/-- Fallback CSRF token literal from `token.py` line 118. -/
def CSRF_FALLBACK : String := "iwtmChEzi0ixw18P983l5ai7"

/-- Fallback quote token literal from `token.py` line 141. -/
def QUOTE_FALLBACK : String := "99227e34c9"

/-- The relevant observable parts of an `httpx.Response`:
status code, response headers and decoded body text.  (Cookies are also
passed around in the source but never read by the extraction code.) -/
structure Response where
  status_code : Nat
  headers : List (String × String)
  text : String
deriving Repr, DecidableEq

/-- ASCII lowercasing of one character (header names are ASCII). -/
def asciiLower (c : Char) : Char :=
  if 65 ≤ c.toNat && c.toNat ≤ 90 then Char.ofNat (c.toNat + 32) else c

/-- ASCII lowercasing of a string. -/
def lowerStr (s : String) : String := String.mk (s.data.map asciiLower)

/-- `httpx` header lookup (`response.headers.get(name)`): case-insensitive
on the header name, `None` when absent. -/
def headersGet (hs : List (String × String)) (key : String) : Option String :=
  (hs.find? (fun p => lowerStr p.1 == lowerStr key)).map Prod.snd

/-- Outcome of the transport `GET`: either a response, or a network-level
failure (`httpx.RequestError`) with its message. -/
inductive FetchOutcome where
  | response (r : Response)
  | requestError (msg : String)
deriving Repr, DecidableEq

/-! ### The regex patterns of `_extract_csrf_token` / `_extract_quote_token`

Both patterns have the shape
`PRE[_-]?token["\x27]\s*[:=]\s*["\x27]([^"\x27]+)["\x27]`
with `PRE` being `csrf` resp. `quote`.  `re.search` finds the leftmost
starting position admitting a match; at a position the greedy `[_-]?`
tries the one-character branch first and backtracks to the empty branch,
and the greedy `([^"\x27]+)` takes the maximal run of non-quote
characters (shortening it can never help, because the following atom is a
quote and every dropped character is a non-quote). -/

/-- A double or single quote, the class `["\x27]`. -/
def quoteChar (c : Char) : Bool :=
  c = Char.ofNat 34 || c = Char.ofNat 39

/-- Python `\s` on the ASCII range: space, tab, LF, VT, FF, CR. -/
def pySpace (c : Char) : Bool :=
  c = ' ' || c = Char.ofNat 9 || c = Char.ofNat 10 ||
  c = Char.ofNat 11 || c = Char.ofNat 12 || c = Char.ofNat 13

/-- Match a literal character sequence, returning the remaining input. -/
def matchLit : List Char → List Char → Option (List Char)
  | [], cs => some cs
  | _ :: _, [] => none
  | p :: ps, c :: cs => if c = p then matchLit ps cs else none

/-- `\s*`: drop leading whitespace. -/
def skipWs (cs : List Char) : List Char := cs.dropWhile pySpace

/-- `["\x27]`: one quote character. -/
def expectQuote : List Char → Option (List Char)
  | [] => none
  | c :: rest => if quoteChar c then some rest else none

/-- `[:=]`: one colon or equals sign. -/
def expectColonEq : List Char → Option (List Char)
  | [] => none
  | c :: rest => if c = ':' || c = '=' then some rest else none

/-- `([^"\x27]+)["\x27]`: a maximal nonempty run of non-quote characters
(the capturing group) followed by a quote. -/
def captureQuoted (cs : List Char) : Option String :=
  let run := cs.takeWhile (fun x => !(quoteChar x))
  if run = [] then none
  else
    match cs.drop run.length with
    | [] => none
    | f :: _ => if quoteChar f then some (String.mk run) else none

/-- The tail `["\x27]\s*[:=]\s*["\x27]([^"\x27]+)["\x27]` of both
patterns, applied right after `token`. -/
def matchTail (cs : List Char) : Option String :=
  (expectQuote cs).bind fun r1 =>
    (expectColonEq (skipWs r1)).bind fun r2 =>
      (expectQuote (skipWs r2)).bind fun r3 =>
        captureQuoted r3

/-- `token` followed by the tail (the empty branch of `[_-]?`). -/
def noSepMatch (cs : List Char) : Option String :=
  match matchLit ("token".toList) cs with
  | some r => matchTail r
  | none => none

/-- `[_-]?token` followed by the tail: the greedy optional separator is
tried first and backtracks to the empty branch on failure. -/
def sepMatch (cs : List Char) : Option String :=
  match cs with
  | [] => noSepMatch []
  | c :: rest =>
    if c = '_' || c = '-' then
      match matchLit ("token".toList) rest with
      | some r =>
        match matchTail r with
        | some s => some s
        | none => noSepMatch cs
      | none => noSepMatch cs
    else noSepMatch cs

/-- Attempt the whole pattern at the current position: the literal
prefix (`csrf` / `quote`), then `[_-]?token`, then the tail. -/
def matchAt (pre : List Char) (cs : List Char) : Option String :=
  match matchLit pre cs with
  | some r => sepMatch r
  | none => none

/-- `re.search`: try each start position left to right, returning
`group(1)` of the first match.  (The empty suffix cannot match since the
patterns begin with a nonempty literal.) -/
def reSearch (pre : List Char) : List Char → Option String
  | [] => none
  | c :: rest =>
    match matchAt pre (c :: rest) with
    | some s => some s
    | none => reSearch pre rest

/-- `re.search(r'csrf[_-]?token…', content)` with `group(1)`. -/
def csrfSearch (content : String) : Option String :=
  reSearch ("csrf".toList) content.toList

/-- `re.search(r'quote[_-]?token…', content)` with `group(1)`. -/
def quoteSearch (content : String) : Option String :=
  reSearch ("quote".toList) content.toList

/-! ### The token manager -/

/-- The mutable fields of `TokenManager` (the `client` is the transport,
abstracted into the `FetchOutcome` arguments below). -/
structure TokenState where
  csrf_token : Option String
  quote_token : Option String
  headers_cache : Option (List (String × String))
deriving Repr, DecidableEq

/-- `TokenManager.__init__`: all fields start out `None`. -/
def initState : TokenState := ⟨none, none, none⟩

/-- `TokenManager._extract_csrf_token`: the `x-csrf-token` response header
when present and truthy (non-empty), else the body pattern match, else the
fallback literal. -/
def extract_csrf_token (r : Response) : String :=
  match headersGet r.headers "x-csrf-token" with
  | some v =>
    if v = "" then
      match csrfSearch r.text with
      | some s => s
      | none => CSRF_FALLBACK
    else v
  | none =>
    match csrfSearch r.text with
    | some s => s
    | none => CSRF_FALLBACK

/-- `TokenManager._extract_quote_token`: the body pattern match, else the
fallback literal (no header is consulted). -/
def extract_quote_token (r : Response) : String :=
  match quoteSearch r.text with
  | some s => s
  | none => QUOTE_FALLBACK

/-- `TokenManager._build_headers`: the five fixed headers derived from the
current state; a `None` token renders as `""` (`self.csrf_token or ""`). -/
def build_headers (st : TokenState) : List (String × String) :=
  [ ("futu-x-csrf-token", st.csrf_token.getD ""),
    ("quote-token", st.quote_token.getD ""),
    ("referer", STOCK_LIST_PAGE),
    ("user-agent", DEFAULT_USER_AGENT),
    ("accept", "application/json, text/plain, */*") ]

/-- `TokenManager._fetch_tokens`: one `GET` to the stock-list page.
A non-200 status raises (`Failed to fetch tokens: HTTP …`) before any
field is written; a network error is caught and re-raised
(`Network error: …`); on a 200 response both token fields are assigned
the (total) extraction results. -/
def fetch_tokens (st : TokenState) (t : FetchOutcome) :
    TokenState × Except String Unit :=
  match t with
  | .requestError msg => (st, .error ("Network error: " ++ msg))
  | .response r =>
    if r.status_code ≠ 200 then
      (st, .error ("Failed to fetch tokens: HTTP " ++ toString r.status_code))
    else
      ({ st with
          csrf_token := some (extract_csrf_token r),
          quote_token := some (extract_quote_token r) },
        .ok ())

/-- `TokenManager.get_tokens`: fetch iff either token is `None`, then
return the freshly built headers.  The third component counts the network
round-trips issued by the call. -/
def get_tokens (st : TokenState) (t : FetchOutcome) :
    TokenState × Except String (List (String × String)) × Nat :=
  if st.csrf_token = none ∨ st.quote_token = none then
    match fetch_tokens st t with
    | (st2, .ok _) => (st2, .ok (build_headers st2), 1)
    | (st2, .error e) => (st2, .error e, 1)
  else
    (st, .ok (build_headers st), 0)

/-- `TokenManager.refresh_tokens`: clear both token fields, then
`get_tokens`. -/
def refresh_tokens (st : TokenState) (t : FetchOutcome) :
    TokenState × Except String (List (String × String)) × Nat :=
  get_tokens { st with csrf_token := none, quote_token := none } t

/-- `TokenManager.invalidate`: clear both token fields and the (otherwise
unused) `_headers_cache`; no transport argument — the source performs no
I/O here. -/
def invalidate (st : TokenState) : TokenState :=
  { st with csrf_token := none, quote_token := none, headers_cache := none }

/-! ### Properties used by the claims -/

/-- §3 invariant: both token fields populated, or both absent. -/
def bothOrNeither (st : TokenState) : Prop :=
  (st.csrf_token = none ∧ st.quote_token = none) ∨
  (st.csrf_token ≠ none ∧ st.quote_token ≠ none)

/-- Every populated token field holds a non-empty string. -/
def tokensWF (st : TokenState) : Prop :=
  (∀ s, st.csrf_token = some s → s ≠ "") ∧
  (∀ s, st.quote_token = some s → s ≠ "")

/-! ### Helper lemmas: the capturing group is never empty -/

theorem captureQuoted_ne_empty (cs : List Char) (s : String)
    (h : captureQuoted cs = some s) : s ≠ "" := by
  simp only [captureQuoted] at h
  split at h
  · exact absurd h (by simp)
  · rename_i hrun
    split at h
    · exact absurd h (by simp)
    · split at h
      · have hs : String.mk (cs.takeWhile fun x => !(quoteChar x)) = s :=
          Option.some.inj h
        intro hempty
        apply hrun
        have := congrArg String.data (hs.trans hempty)
        simpa using this
      · exact absurd h (by simp)

theorem matchTail_ne_empty (cs : List Char) (s : String)
    (h : matchTail cs = some s) : s ≠ "" := by
  simp only [matchTail, Option.bind_eq_some] at h
  obtain ⟨r1, h1, r2, h2, r3, h3, hc⟩ := h
  exact captureQuoted_ne_empty r3 s hc

theorem noSepMatch_ne_empty (cs : List Char) (s : String)
    (h : noSepMatch cs = some s) : s ≠ "" := by
  simp only [noSepMatch] at h
  split at h
  · exact matchTail_ne_empty _ _ h
  · exact absurd h (by simp)

theorem sepMatch_ne_empty (cs : List Char) (s : String)
    (h : sepMatch cs = some s) : s ≠ "" := by
  simp only [sepMatch] at h
  split at h
  · exact noSepMatch_ne_empty _ _ h
  · split at h
    · split at h
      · split at h
        · rename_i hmt
          cases h
          exact matchTail_ne_empty _ _ hmt
        · exact noSepMatch_ne_empty _ _ h
      · exact noSepMatch_ne_empty _ _ h
    · exact noSepMatch_ne_empty _ _ h

theorem matchAt_ne_empty (pre cs : List Char) (s : String)
    (h : matchAt pre cs = some s) : s ≠ "" := by
  simp only [matchAt] at h
  split at h
  · exact sepMatch_ne_empty _ _ h
  · exact absurd h (by simp)

theorem reSearch_ne_empty (pre : List Char) (cs : List Char) (s : String)
    (h : reSearch pre cs = some s) : s ≠ "" := by
  induction cs with
  | nil => simp [reSearch] at h
  | cons c rest ih =>
    simp only [reSearch] at h
    split at h
    · exact matchAt_ne_empty _ _ _ (by rw [‹matchAt pre (c :: rest) = some _›, h])
    · exact ih h

theorem extract_csrf_token_ne_empty (r : Response) :
    extract_csrf_token r ≠ "" := by
  unfold extract_csrf_token
  split
  · rename_i v hv
    split
    · split
      · rename_i s hs
        exact reSearch_ne_empty _ _ s hs
      · decide
    · assumption
  · split
    · rename_i s hs
      exact reSearch_ne_empty _ _ s hs
    · decide

theorem extract_quote_token_ne_empty (r : Response) :
    extract_quote_token r ≠ "" := by
  unfold extract_quote_token
  split
  · rename_i s hs
    exact reSearch_ne_empty _ _ s hs
  · decide

/-! ### Claim theorems -/

/-- C1: the both-or-neither invariant holds initially, is preserved by
`get_tokens` under every fetch outcome (success, HTTP error, network
error, malformed body — all values of `FetchOutcome` and `Response`),
and holds unconditionally after `refresh_tokens` and `invalidate`,
whether the call returns headers or an error. -/
theorem c1_both_or_neither :
    bothOrNeither initState ∧
    (∀ st t, bothOrNeither st → bothOrNeither (get_tokens st t).1) ∧
    (∀ st t, bothOrNeither (refresh_tokens st t).1) ∧
    (∀ st, bothOrNeither (invalidate st)) := by
  refine ⟨Or.inl ⟨rfl, rfl⟩, ?_, ?_, ?_⟩
  · intro st t hst
    by_cases hcond : st.csrf_token = none ∨ st.quote_token = none
    · have hboth : st.csrf_token = none ∧ st.quote_token = none := by
        rcases hst with h | h
        · exact h
        · rcases hcond with hc | hc
          · exact absurd hc h.1
          · exact absurd hc h.2
      cases t with
      | requestError msg =>
        simp [get_tokens, fetch_tokens, hcond, bothOrNeither, hboth.1, hboth.2]
      | response r =>
        by_cases h200 : r.status_code = 200
        · simp [get_tokens, fetch_tokens, hcond, h200, bothOrNeither]
        · simp [get_tokens, fetch_tokens, hcond, h200, bothOrNeither,
            hboth.1, hboth.2]
    · simpa [get_tokens, hcond] using hst
  · intro st t
    cases t with
    | requestError msg =>
      simp [refresh_tokens, get_tokens, fetch_tokens, bothOrNeither]
    | response r =>
      by_cases h200 : r.status_code = 200
      · simp [refresh_tokens, get_tokens, fetch_tokens, h200, bothOrNeither]
      · simp [refresh_tokens, get_tokens, fetch_tokens, h200, bothOrNeither]
  · intro st
    exact Or.inl ⟨rfl, rfl⟩

/-- C1 witness: the invariant-preservation conjunct applied to the initial
(empty) state under a network error. -/
theorem c1_both_or_neither_witness :
    bothOrNeither (get_tokens initState (.requestError "offline")).1 :=
  c1_both_or_neither.2.1 initState (.requestError "offline")
    (Or.inl ⟨rfl, rfl⟩)

/-- C2: when the token-page fetch fails — non-200 status, or a
network-level transport error — `get_tokens` (from the unauthenticated
state) raises the acquisition error, carrying the status code in the
non-success case, issues exactly one network round-trip (no internal
retry), and leaves the state unchanged with both tokens unset;
`refresh_tokens` from any state likewise raises and ends with both
tokens unset. -/
theorem c2_fetch_failure (st : TokenState) (r : Response) (msg : String)
    (hc : st.csrf_token = none) (_hq : st.quote_token = none)
    (hr : r.status_code ≠ 200) :
    get_tokens st (.response r) =
      (st, .error ("Failed to fetch tokens: HTTP " ++ toString r.status_code), 1) ∧
    get_tokens st (.requestError msg) =
      (st, .error ("Network error: " ++ msg), 1) ∧
    (∀ st' : TokenState,
      refresh_tokens st' (.response r) =
        ({ st' with csrf_token := none, quote_token := none },
          .error ("Failed to fetch tokens: HTTP " ++ toString r.status_code), 1) ∧
      refresh_tokens st' (.requestError msg) =
        ({ st' with csrf_token := none, quote_token := none },
          .error ("Network error: " ++ msg), 1)) := by
  refine ⟨?_, ?_, ?_⟩
  · simp [get_tokens, fetch_tokens, hc, hr]
  · simp [get_tokens, fetch_tokens, hc]
  · intro st'
    constructor
    · simp [refresh_tokens, get_tokens, fetch_tokens, hr]
    · simp [refresh_tokens, get_tokens, fetch_tokens]

/-- C2 witness: an HTTP 403 response and a network error against the
initial state. -/
theorem c2_fetch_failure_witness :
    get_tokens initState (.response ⟨403, [], "forbidden"⟩) =
      (initState, .error ("Failed to fetch tokens: HTTP " ++ toString 403), 1) :=
  (c2_fetch_failure initState ⟨403, [], "forbidden"⟩ "down" rfl rfl
    (by decide)).1

/-- C3 counterexample: from a state in which both tokens are already
present, two consecutive `get_tokens` calls perform ZERO fetches in
total, not the "exactly one fetch in total" the claim states. -/
theorem c3_counterexample :
    (get_tokens ⟨some "aaa", some "bbb", none⟩ (.requestError "offline")).2.2 +
      (get_tokens
        (get_tokens ⟨some "aaa", some "bbb", none⟩ (.requestError "offline")).1
        (.requestError "offline")).2.2 = 0 := by
  rfl

/-- C3 amended: for every state in which both tokens are already present,
calling `get_tokens` twice in a row without intervening
`invalidate`/`refresh_tokens` performs no fetch at all — both calls issue
no network request and return the identical cached headers; and whenever
the first call returns successfully, the second call issues no network
request and returns headers identical to the first call's result. -/
theorem c3_idempotence (st : TokenState) (t t' : FetchOutcome) :
    (st.csrf_token ≠ none → st.quote_token ≠ none →
      get_tokens st t = (st, .ok (build_headers st), 0) ∧
      get_tokens st t' = (st, .ok (build_headers st), 0)) ∧
    (∀ h, (get_tokens st t).2.1 = .ok h →
      get_tokens (get_tokens st t).1 t' = ((get_tokens st t).1, .ok h, 0)) := by
  by_cases hcond : st.csrf_token = none ∨ st.quote_token = none
  · refine ⟨?_, ?_⟩
    · intro hc _
      rcases hcond with h | h
      · exact absurd h hc
      · exact absurd h ‹st.quote_token ≠ none›
    · intro h hok
      cases t with
      | requestError msg =>
        simp [get_tokens, fetch_tokens, hcond] at hok
      | response r =>
        by_cases h200 : r.status_code = 200
        · have hpost : (get_tokens st (.response r)).1 =
              { st with csrf_token := some (extract_csrf_token r),
                        quote_token := some (extract_quote_token r) } := by
            simp [get_tokens, fetch_tokens, hcond, h200]
          have hh : h = build_headers (get_tokens st (.response r)).1 := by
            simp [get_tokens, fetch_tokens, hcond, h200] at hok
            rw [hpost, ← hok]
          rw [hh, hpost]
          simp [get_tokens]
        · simp [get_tokens, fetch_tokens, hcond, h200] at hok
  · refine ⟨?_, ?_⟩
    · intro _ _
      constructor <;> simp [get_tokens, hcond]
    · intro h hok
      have hh : h = build_headers st := by
        simp [get_tokens, hcond] at hok
        exact hok.symm
      simp [get_tokens, hcond, hh]

/-- C3 witness: the cached-state conjunct applied to a concrete
authenticated state — both calls are fetch-free and identical. -/
theorem c3_idempotence_witness :
    get_tokens ⟨some "tok1", some "tok2", none⟩ (.requestError "offline") =
      (⟨some "tok1", some "tok2", none⟩,
        .ok (build_headers ⟨some "tok1", some "tok2", none⟩), 0) :=
  ((c3_idempotence ⟨some "tok1", some "tok2", none⟩
      (.requestError "offline") (.requestError "offline")).1
    (by simp) (by simp)).1

/-- C4 counterexample: a response whose `x-csrf-token` header is present
but empty, while the body holds a conflicting pattern match: the claim
says the header value must be used whenever the header is present, but
the code (`if csrf_token:` is false for `""`) uses the body value. -/
theorem c4_counterexample :
    headersGet [("x-csrf-token", "")] "x-csrf-token" = some "" ∧
    csrfSearch "csrf_token\": \"bodyval\"" = some "bodyval" ∧
    extract_csrf_token ⟨200, [("x-csrf-token", "")], "csrf_token\": \"bodyval\""⟩ =
      "bodyval" := by
  refine ⟨rfl, rfl, rfl⟩

/-- C4 amended: CSRF extraction priority requires a NON-EMPTY header
value: when the `x-csrf-token` header is present with a non-empty value,
that value is used even if the body also matches; when the header is
absent or present with an empty value, the body pattern is used when it
matches, and the hardcoded fallback constant only when it does not. -/
theorem c4_extraction_priority (r : Response) (v s : String) :
    (headersGet r.headers "x-csrf-token" = some v → v ≠ "" →
      extract_csrf_token r = v) ∧
    ((headersGet r.headers "x-csrf-token" = none ∨
        headersGet r.headers "x-csrf-token" = some "") →
      csrfSearch r.text = some s → extract_csrf_token r = s) ∧
    ((headersGet r.headers "x-csrf-token" = none ∨
        headersGet r.headers "x-csrf-token" = some "") →
      csrfSearch r.text = none → extract_csrf_token r = CSRF_FALLBACK) := by
  refine ⟨?_, ?_, ?_⟩
  · intro hhdr hv
    simp [extract_csrf_token, hhdr, hv]
  · rintro (hhdr | hhdr) hs <;> simp [extract_csrf_token, hhdr, hs]
  · rintro (hhdr | hhdr) hs <;> simp [extract_csrf_token, hhdr, hs]

/-- C4 witness: all three priority levels at concrete responses — a
non-empty header wins over a conflicting body match, an absent header
falls through to the body match, and with neither the fallback is used. -/
theorem c4_extraction_priority_witness :
    extract_csrf_token ⟨200, [("x-csrf-token", "hdrval")], "csrf_token\": \"bodyval\""⟩ =
      "hdrval" ∧
    extract_csrf_token ⟨200, [], "csrf_token\": \"bodyval\""⟩ = "bodyval" ∧
    extract_csrf_token ⟨200, [], "no tokens here"⟩ = CSRF_FALLBACK :=
  ⟨(c4_extraction_priority
      ⟨200, [("x-csrf-token", "hdrval")], "csrf_token\": \"bodyval\""⟩
      "hdrval" "bodyval").1 rfl (by decide),
   (c4_extraction_priority ⟨200, [], "csrf_token\": \"bodyval\""⟩
      "hdrval" "bodyval").2.1 (Or.inl rfl) rfl,
   (c4_extraction_priority ⟨200, [], "no tokens here"⟩
      "hdrval" "bodyval").2.2 (Or.inl rfl) rfl⟩

/-- C5: a 200 response with no CSRF header and a body matching neither
pattern — from the unauthenticated state, `get_tokens` succeeds with one
fetch, stores the two fallback literals, and the returned header map
carries them verbatim. -/
theorem c5_fallback_headers (st : TokenState) (r : Response)
    (hc : st.csrf_token = none) (_hq : st.quote_token = none)
    (h200 : r.status_code = 200)
    (hhdr : headersGet r.headers "x-csrf-token" = none)
    (hcs : csrfSearch r.text = none) (hqs : quoteSearch r.text = none) :
    get_tokens st (.response r) =
      ({ st with csrf_token := some "iwtmChEzi0ixw18P983l5ai7",
                 quote_token := some "99227e34c9" },
        .ok [ ("futu-x-csrf-token", "iwtmChEzi0ixw18P983l5ai7"),
              ("quote-token", "99227e34c9"),
              ("referer", STOCK_LIST_PAGE),
              ("user-agent", DEFAULT_USER_AGENT),
              ("accept", "application/json, text/plain, */*") ], 1) := by
  have hcsrf : extract_csrf_token r = "iwtmChEzi0ixw18P983l5ai7" := by
    simp [extract_csrf_token, hhdr, hcs, CSRF_FALLBACK]
  have hquote : extract_quote_token r = "99227e34c9" := by
    simp [extract_quote_token, hqs, QUOTE_FALLBACK]
  simp [get_tokens, fetch_tokens, hc, h200, hcsrf, hquote, build_headers]

/-- C5 witness: the fallback path evaluated on a concrete tokenless
body. -/
theorem c5_fallback_headers_witness :
    get_tokens initState (.response ⟨200, [], "plain page"⟩) =
      ({ initState with csrf_token := some "iwtmChEzi0ixw18P983l5ai7",
                        quote_token := some "99227e34c9" },
        .ok [ ("futu-x-csrf-token", "iwtmChEzi0ixw18P983l5ai7"),
              ("quote-token", "99227e34c9"),
              ("referer", STOCK_LIST_PAGE),
              ("user-agent", DEFAULT_USER_AGENT),
              ("accept", "application/json, text/plain, */*") ], 1) :=
  c5_fallback_headers initState ⟨200, [], "plain page"⟩ rfl rfl rfl rfl
    (by decide) (by decide)

/-- Shared case analysis: a successful `get_tokens` call either served the
cache (state unchanged) or performed a 200 fetch that set both fields to
the extraction results; either way the returned map is `build_headers` of
the post-state. -/
theorem get_tokens_ok_cases (st : TokenState) (t : FetchOutcome)
    (h : List (String × String))
    (hok : (get_tokens st t).2.1 = .ok h) :
    h = build_headers (get_tokens st t).1 ∧
    ((¬(st.csrf_token = none ∨ st.quote_token = none) ∧
        (get_tokens st t).1 = st) ∨
      (∃ r, t = .response r ∧ r.status_code = 200 ∧
        (get_tokens st t).1 =
          { st with csrf_token := some (extract_csrf_token r),
                    quote_token := some (extract_quote_token r) })) := by
  by_cases hcond : st.csrf_token = none ∨ st.quote_token = none
  · cases t with
    | requestError msg => simp [get_tokens, fetch_tokens, hcond] at hok
    | response r =>
      by_cases h200 : r.status_code = 200
      · have hpost : (get_tokens st (.response r)).1 =
            { st with csrf_token := some (extract_csrf_token r),
                      quote_token := some (extract_quote_token r) } := by
          simp [get_tokens, fetch_tokens, hcond, h200]
        refine ⟨?_, Or.inr ⟨r, rfl, h200, hpost⟩⟩
        simp [get_tokens, fetch_tokens, hcond, h200] at hok
        rw [hpost, ← hok]
      · simp [get_tokens, fetch_tokens, hcond, h200] at hok
  · have hres : get_tokens st t = (st, .ok (build_headers st), 0) := by
      simp [get_tokens, hcond]
    rw [hres] at hok
    refine ⟨?_, Or.inl ⟨hcond, by rw [hres]⟩⟩
    rw [hres]
    exact (Except.ok.inj hok).symm

theorem headersGet_build_csrf (st : TokenState) :
    headersGet (build_headers st) "futu-x-csrf-token" =
      some (st.csrf_token.getD "") := rfl

theorem headersGet_build_quote (st : TokenState) :
    headersGet (build_headers st) "quote-token" =
      some (st.quote_token.getD "") := rfl

/-- C6: `refresh_tokens` equals `get_tokens` on the token-cleared state,
always performs exactly one fetch — in every starting state, including
one holding valid cached tokens — and on a 200 response returns the
headers derived from the newly fetched (re-extracted) tokens. -/
theorem c6_refresh_forces_fetch (st : TokenState) (t : FetchOutcome) :
    refresh_tokens st t =
      get_tokens { st with csrf_token := none, quote_token := none } t ∧
    (refresh_tokens st t).2.2 = 1 ∧
    (∀ r : Response, r.status_code = 200 →
      refresh_tokens st (.response r) =
        ({ st with csrf_token := some (extract_csrf_token r),
                   quote_token := some (extract_quote_token r) },
          .ok (build_headers
            { st with csrf_token := some (extract_csrf_token r),
                      quote_token := some (extract_quote_token r) }), 1)) := by
  refine ⟨rfl, ?_, ?_⟩
  · cases t with
    | requestError msg => simp [refresh_tokens, get_tokens, fetch_tokens]
    | response r =>
      by_cases h200 : r.status_code = 200
      · simp [refresh_tokens, get_tokens, fetch_tokens, h200]
      · simp [refresh_tokens, get_tokens, fetch_tokens, h200]
  · intro r h200
    simp [refresh_tokens, get_tokens, fetch_tokens, h200]

/-- C6 witness: refreshing a state that already holds valid cached tokens
still fetches and returns the newly extracted tokens. -/
theorem c6_refresh_forces_fetch_witness :
    refresh_tokens ⟨some "old1", some "old2", none⟩
        (.response ⟨200, [], "\x7b\"csrf_token\": \"abc123\", \"quote_token\": \"xyz789\"\x7d"⟩) =
      (⟨some "abc123", some "xyz789", none⟩,
        .ok [ ("futu-x-csrf-token", "abc123"),
              ("quote-token", "xyz789"),
              ("referer", STOCK_LIST_PAGE),
              ("user-agent", DEFAULT_USER_AGENT),
              ("accept", "application/json, text/plain, */*") ], 1) := by
  have := (c6_refresh_forces_fetch ⟨some "old1", some "old2", none⟩
      (.response ⟨200, [],
        "\x7b\"csrf_token\": \"abc123\", \"quote_token\": \"xyz789\"\x7d"⟩)).2.2
    ⟨200, [], "\x7b\"csrf_token\": \"abc123\", \"quote_token\": \"xyz789\"\x7d"⟩ rfl
  rw [this]
  rfl

/-- C7: the header map is a pure derived view of `TokenState`: it always
consists of exactly the five documented entries, with an unset token
rendered as the empty-string value (never an omitted key), and every
successful `get_tokens` / `refresh_tokens` result equals `build_headers`
recomputed on the post-call state. -/
theorem c7_header_shape (st : TokenState) (t : FetchOutcome) :
    build_headers st =
      [ ("futu-x-csrf-token", st.csrf_token.getD ""),
        ("quote-token", st.quote_token.getD ""),
        ("referer", STOCK_LIST_PAGE),
        ("user-agent", DEFAULT_USER_AGENT),
        ("accept", "application/json, text/plain, */*") ] ∧
    (∀ h, (get_tokens st t).2.1 = .ok h →
      h = build_headers (get_tokens st t).1) ∧
    (∀ h, (refresh_tokens st t).2.1 = .ok h →
      h = build_headers (refresh_tokens st t).1) := by
  refine ⟨rfl, ?_, ?_⟩
  · intro h hok
    exact (get_tokens_ok_cases st t h hok).1
  · intro h hok
    exact (get_tokens_ok_cases _ t h hok).1

/-- C7 witness: the empty-state header map renders both token headers as
empty strings, and a successful cached call returns the derived view. -/
theorem c7_header_shape_witness :
    build_headers initState =
      [ ("futu-x-csrf-token", ""),
        ("quote-token", ""),
        ("referer", STOCK_LIST_PAGE),
        ("user-agent", DEFAULT_USER_AGENT),
        ("accept", "application/json, text/plain, */*") ] ∧
    build_headers ⟨some "tok1", some "tok2", none⟩ =
      build_headers
        (get_tokens ⟨some "tok1", some "tok2", none⟩ (.requestError "e")).1 :=
  ⟨(c7_header_shape initState (.requestError "e")).1,
    (c7_header_shape ⟨some "tok1", some "tok2", none⟩ (.requestError "e")).2.1
      (build_headers ⟨some "tok1", some "tok2", none⟩) rfl⟩

/-- C8: `invalidate` is a pure state update (it takes no transport and
issues no fetch): it clears both tokens and the never-populated
`_headers_cache`, changing nothing else — on any reachable state (where
the cache field is already `none`) its entire effect is clearing the two
token fields; afterwards the next `get_tokens` performs exactly one
fetch, whatever was cached before. -/
theorem c8_invalidate (st : TokenState) (t : FetchOutcome) :
    invalidate st = ⟨none, none, none⟩ ∧
    (st.headers_cache = none →
      invalidate st = { st with csrf_token := none, quote_token := none }) ∧
    (get_tokens (invalidate st) t).2.2 = 1 := by
  refine ⟨rfl, ?_, ?_⟩
  · intro hcache
    simp [invalidate, hcache]
  · cases t with
    | requestError msg => simp [get_tokens, fetch_tokens, invalidate]
    | response r =>
      by_cases h200 : r.status_code = 200
      · simp [get_tokens, fetch_tokens, invalidate, h200]
      · simp [get_tokens, fetch_tokens, invalidate, h200]

/-- C8 witness: invalidating a concrete authenticated state only clears
the token fields, and the next call fetches exactly once. -/
theorem c8_invalidate_witness :
    invalidate ⟨some "tok1", some "tok2", none⟩ =
      { (⟨some "tok1", some "tok2", none⟩ : TokenState) with
          csrf_token := none, quote_token := none } ∧
    (get_tokens (invalidate ⟨some "tok1", some "tok2", none⟩)
      (.requestError "offline")).2.2 = 1 :=
  ⟨(c8_invalidate ⟨some "tok1", some "tok2", none⟩
      (.requestError "offline")).2.1 rfl,
    (c8_invalidate ⟨some "tok1", some "tok2", none⟩
      (.requestError "offline")).2.2⟩

/-- C9: populated token fields are always non-empty strings — the
invariant holds initially, is preserved by every operation, and after
every normally-returning `get_tokens` (from an invariant-satisfying
state) or `refresh_tokens` (from any state) both fields hold non-empty
strings and the two token headers of the returned map are never the
empty string: the degraded empty-string rendering is unreachable through
the public success path. -/
theorem c9_nonempty_tokens :
    tokensWF initState ∧
    (∀ st t, tokensWF st → tokensWF (get_tokens st t).1) ∧
    (∀ st t, tokensWF (refresh_tokens st t).1) ∧
    (∀ st, tokensWF st → tokensWF (invalidate st)) ∧
    (∀ st t h, tokensWF st → (get_tokens st t).2.1 = .ok h →
      ∃ c q, (get_tokens st t).1.csrf_token = some c ∧
        (get_tokens st t).1.quote_token = some q ∧ c ≠ "" ∧ q ≠ "" ∧
        headersGet h "futu-x-csrf-token" = some c ∧
        headersGet h "quote-token" = some q) ∧
    (∀ st t h, (refresh_tokens st t).2.1 = .ok h →
      ∃ c q, (refresh_tokens st t).1.csrf_token = some c ∧
        (refresh_tokens st t).1.quote_token = some q ∧ c ≠ "" ∧ q ≠ "" ∧
        headersGet h "futu-x-csrf-token" = some c ∧
        headersGet h "quote-token" = some q) := by
  have hwfclear : ∀ c : Option (List (String × String)),
      tokensWF ⟨none, none, c⟩ :=
    fun c => ⟨fun s hs => by simp at hs, fun s hs => by simp at hs⟩
  have hpres : ∀ st t, tokensWF st → tokensWF (get_tokens st t).1 := by
    intro st t hwf
    by_cases hcond : st.csrf_token = none ∨ st.quote_token = none
    · cases t with
      | requestError msg => simpa [get_tokens, fetch_tokens, hcond] using hwf
      | response r =>
        by_cases h200 : r.status_code = 200
        · have hpost : (get_tokens st (.response r)).1 =
              { st with csrf_token := some (extract_csrf_token r),
                        quote_token := some (extract_quote_token r) } := by
            simp [get_tokens, fetch_tokens, hcond, h200]
          rw [hpost]
          refine ⟨fun s hs => ?_, fun s hs => ?_⟩
          · simp only [TokenState.csrf_token, Option.some.injEq] at hs
            rw [← hs]
            exact extract_csrf_token_ne_empty r
          · simp only [TokenState.quote_token, Option.some.injEq] at hs
            rw [← hs]
            exact extract_quote_token_ne_empty r
        · simpa [get_tokens, fetch_tokens, hcond, h200] using hwf
    · simpa [get_tokens, hcond] using hwf
  have hok5 : ∀ st t h, tokensWF st → (get_tokens st t).2.1 = .ok h →
      ∃ c q, (get_tokens st t).1.csrf_token = some c ∧
        (get_tokens st t).1.quote_token = some q ∧ c ≠ "" ∧ q ≠ "" ∧
        headersGet h "futu-x-csrf-token" = some c ∧
        headersGet h "quote-token" = some q := by
    intro st t h hwf hok
    obtain ⟨hh, hcase⟩ := get_tokens_ok_cases st t h hok
    rcases hcase with ⟨hcond, hpost⟩ | ⟨r, ht, h200, hpost⟩
    · push_neg at hcond
      obtain ⟨c, hc⟩ := Option.ne_none_iff_exists'.mp hcond.1
      obtain ⟨q, hqq⟩ := Option.ne_none_iff_exists'.mp hcond.2
      refine ⟨c, q, by rw [hpost]; exact hc, by rw [hpost]; exact hqq,
        hwf.1 c hc, hwf.2 q hqq, ?_, ?_⟩
      · rw [hh, hpost, headersGet_build_csrf, hc]
        rfl
      · rw [hh, hpost, headersGet_build_quote, hqq]
        rfl
    · refine ⟨extract_csrf_token r, extract_quote_token r,
        by rw [hpost], by rw [hpost],
        extract_csrf_token_ne_empty r, extract_quote_token_ne_empty r, ?_, ?_⟩
      · rw [hh, hpost, headersGet_build_csrf]
        rfl
      · rw [hh, hpost, headersGet_build_quote]
        rfl
  refine ⟨⟨fun s hs => by simp [initState] at hs,
           fun s hs => by simp [initState] at hs⟩,
    hpres, ?_, ?_, hok5, ?_⟩
  · intro st t
    exact hpres { st with csrf_token := none, quote_token := none } t
      (hwfclear st.headers_cache)
  · intro st _
    exact hwfclear st.headers_cache
  · intro st t h hok
    exact hok5 { st with csrf_token := none, quote_token := none } t h
      (hwfclear st.headers_cache) hok

/-- C9 witness: the success-path conjunct at a concrete 200 response whose
body carries both tokens — the returned token headers are the non-empty
extracted values. -/
theorem c9_nonempty_tokens_witness :
    ∃ c q,
      (get_tokens initState (.response ⟨200, [],
        "\x7b\"csrf_token\": \"abc123\", \"quote_token\": \"xyz789\"\x7d"⟩)).1.csrf_token =
          some c ∧
      (get_tokens initState (.response ⟨200, [],
        "\x7b\"csrf_token\": \"abc123\", \"quote_token\": \"xyz789\"\x7d"⟩)).1.quote_token =
          some q ∧ c ≠ "" ∧ q ≠ "" ∧
      headersGet [ ("futu-x-csrf-token", "abc123"),
                   ("quote-token", "xyz789"),
                   ("referer", STOCK_LIST_PAGE),
                   ("user-agent", DEFAULT_USER_AGENT),
                   ("accept", "application/json, text/plain, */*") ]
        "futu-x-csrf-token" = some c ∧
      headersGet [ ("futu-x-csrf-token", "abc123"),
                   ("quote-token", "xyz789"),
                   ("referer", STOCK_LIST_PAGE),
                   ("user-agent", DEFAULT_USER_AGENT),
                   ("accept", "application/json, text/plain, */*") ]
        "quote-token" = some q :=
  c9_nonempty_tokens.2.2.2.2.1 initState
    (.response ⟨200, [], "\x7b\"csrf_token\": \"abc123\", \"quote_token\": \"xyz789\"\x7d"⟩)
    [ ("futu-x-csrf-token", "abc123"),
      ("quote-token", "xyz789"),
      ("referer", STOCK_LIST_PAGE),
      ("user-agent", DEFAULT_USER_AGENT),
      ("accept", "application/json, text/plain, */*") ]
    ⟨fun s hs => by simp [initState] at hs,
     fun s hs => by simp [initState] at hs⟩
    rfl

end Futunn
